import Mathlib

/-!
Verification of the PCA_abcd parking-coupon automation system.

Part 1 models the Coupon Discount Allocation Engine (catalog / policy /
applied-coupon history → allocation plan).  The engine's Python sources
(`shared/utils/common_coupon_calculator.py`, `ApplyCouponUseCase`) are not in
the repository snapshot; the definitions below are therefore modelled from the
specification (spec.md §3–§4) and the repository document
`docs/6_current_coupon_parsing_logic.md`.

Part 2 models the Google-Apps-Script webhook glue that IS present in the
snapshot (`google_apps_script/form_to_webhook.js` and the final variant in
`unnamed/part_000`): time-bucketed duplicate detection and vehicle-number
validation.
-/

/-- Modelled from the spec: §3 `costClass` of a `CouponType` — the engine's
Python data model is missing from the snapshot. One of FREE, PAID,
WEEKEND_ONLY. -/
inductive CostClass where
  | FREE
  | PAID
  | WEEKEND_ONLY
deriving DecidableEq, Repr

/-- Modelled from the spec: §3 `CouponType` — one entry of a store's coupon
catalog (the Python domain model `Coupon` is missing from the snapshot). -/
structure CouponType where
  key : String
  displayName : String
  durationMinutes : Nat
  costClass : CostClass
  priority : Nat
deriving DecidableEq, Repr

/-- Modelled from the spec: §3 `DiscountPolicy` — one weekday/weekend variant:
target discount duration and hard cap on additional coupons. -/
structure DiscountPolicy where
  targetMinutes : Nat
  maxCoupons : Nat
deriving DecidableEq, Repr

/-- Modelled from the spec: §3 `AppliedCouponHistory` — snapshot of already
applied coupons: vehicle-scoped view and store-wide aggregate view. -/
structure AppliedCouponHistory where
  byVehicle : List (String × Nat)
  aggregate : List (String × Nat)
deriving DecidableEq, Repr

abbrev Catalog := List CouponType

/-- Modelled from the spec: §4.2 catalog lookup by coupon key (the Python
`StoreConfig` mapping is missing from the snapshot). -/
def catalogLookup (catalog : Catalog) (k : String) : Option CouponType :=
  catalog.find? (fun c => c.key == k)

/-- Modelled from the spec: §7 error taxonomy — `UnknownStoreError` and
`ConfigMismatchError` are fatal to an allocation call. -/
inductive AllocError where
  | UnknownStoreError (storeId : String)
  | ConfigMismatchError (key : String)
deriving DecidableEq, Repr

/-- Modelled from the spec: §4.2 Current-Discount Calculator —
`currentMinutes = Σ over k in byVehicle: byVehicle[k] * catalogLookup(k).durationMinutes`;
a key absent from the catalog is a `ConfigMismatchError`, reported, never
silently skipped.  (The Python `calculate_remaining_minutes` helper is missing
from the snapshot.) -/
def currentMinutes (catalog : Catalog) : List (String × Nat) → Except AllocError Nat
  | [] => Except.ok 0
  | kn :: rest =>
    match catalogLookup catalog kn.1 with
    | none => Except.error (AllocError.ConfigMismatchError kn.1)
    | some c =>
      match currentMinutes catalog rest with
      | Except.error e => Except.error e
      | Except.ok m => Except.ok (kn.2 * c.durationMinutes + m)

/-- Modelled from the spec: §4.3 — count of FREE-class coupons in a history
view (used for `currentFreeCount` on `byVehicle` and `totalFreeUsed` on
`aggregate`).  Keys that do not resolve contribute nothing here; they are
already fatal in the §4.2 calculator. -/
def freeCount (catalog : Catalog) : List (String × Nat) → Nat
  | [] => 0
  | kn :: rest =>
    (match catalogLookup catalog kn.1 with
     | some c => if c.costClass = CostClass.FREE then kn.2 else 0
     | none => 0) + freeCount catalog rest

/-- Modelled from the spec: duration of the store's FREE coupon type (first
FREE entry of the catalog), an input of the §4.3 gate. -/
def freeCouponDuration (catalog : Catalog) : Nat :=
  match catalog.find? (fun c => c.costClass == CostClass.FREE) with
  | some c => c.durationMinutes
  | none => 0

/-- Modelled from the spec: §4.3 Free-Coupon Eligibility Gate
(`should_apply_free_coupon` in `docs/6_current_coupon_parsing_logic.md`, whose
Python body is missing from the snapshot).  A FREE coupon is eligible iff
`remainingMinutes > 0` and `currentFreeCount == 0`; `totalFreeUsed` and
`freeCouponDuration` are advisory inputs that do not block allocation. -/
def shouldApplyFreeCoupon (totalFreeUsed currentFree remainingMinutes freeDur : Nat) : Bool :=
  decide (0 < remainingMinutes) && decide (currentFree = 0)

/-- Modelled from the spec: §4.4 step 4 eligibility — PAID always, WEEKEND_ONLY
only in weekend context, FREE only when the §4.3 gate permits. -/
def isEligible (isWeekend freeOk : Bool) (c : CouponType) : Bool :=
  match c.costClass with
  | CostClass.PAID => true
  | CostClass.WEEKEND_ONLY => isWeekend
  | CostClass.FREE => freeOk

/-- Modelled from the spec: §4.4 step 4 — FREE candidates are preferred before
paid ones. -/
def classRank : CostClass → Nat
  | CostClass.FREE => 0
  | CostClass.PAID => 1
  | CostClass.WEEKEND_ONLY => 1

/-- Modelled from the spec: §4.4 step 4 candidate ordering — FREE before paid,
then `priority` ascending, ties broken by larger `durationMinutes` first. -/
def candidateLE (a b : CouponType) : Bool :=
  decide (classRank a.costClass < classRank b.costClass) ||
    (decide (classRank a.costClass = classRank b.costClass) &&
      (decide (a.priority < b.priority) ||
        (decide (a.priority = b.priority) && decide (b.durationMinutes ≤ a.durationMinutes))))

/-- Modelled from the spec: stable insertion step of the candidate ordering. -/
def insertCandidate (c : CouponType) : List CouponType → List CouponType
  | [] => [c]
  | d :: rest => if candidateLE c d then c :: d :: rest else d :: insertCandidate c rest

/-- Modelled from the spec: §4.4 step 4 — sort the eligible candidates by the
preference order `candidateLE` (insertion sort, stable). -/
def sortCandidates : List CouponType → List CouponType
  | [] => []
  | c :: rest => insertCandidate c (sortCandidates rest)

/-- Modelled from the spec: §4.4 numeric semantics — ceiling division on
integers, `(remainingMinutes + durationMinutes - 1) / durationMinutes`; no
floating point. -/
def ceilDiv (a b : Nat) : Nat := (a + b - 1) / b

/-- Modelled from the spec: §4.4 step 5 unit count for one candidate —
`ceil(remainingMinutes / durationMinutes)` capped by the coupons still allowed
under `policy.maxCoupons`; a FREE candidate is additionally capped at one unit
per allocation call by the §4.3 free-once allowance (spec §8 free-once
invariant and scenario A). -/
def neededUnitsFor (c : CouponType) (remaining capLeft : Nat) : Nat :=
  if c.costClass = CostClass.FREE then
    min (min (ceilDiv remaining c.durationMinutes) capLeft) 1
  else
    min (ceilDiv remaining c.durationMinutes) capLeft

/-- Modelled from the spec: §4.4 step 5 greedy walk over the ordered
candidates.  Returns the per-candidate allocation together with the minutes
still uncovered when the walk stopped (`0` means the target was reached).
Never allocates once the remainder hits zero or the cap is exhausted. -/
def greedyAllocate (maxCoupons : Nat) : Nat → Nat → List CouponType → List (CouponType × Nat) × Nat
  | remaining, _, [] => ([], remaining)
  | remaining, used, c :: rest =>
    if remaining = 0 then ([], remaining)
    else if maxCoupons - used = 0 then ([], remaining)
    else
      let n := neededUnitsFor c remaining (maxCoupons - used)
      let res := greedyAllocate maxCoupons (remaining - n * c.durationMinutes) (used + n) rest
      ((c, n) :: res.1, res.2)

/-- Modelled from the spec: §3 `AllocationPlan` with the §6 `fullyCovered`
flag for the notification layer. -/
structure AllocationResult where
  plan : List (String × Nat)
  fullyCovered : Bool
deriving DecidableEq, Repr

/-- Modelled from the spec: project the internal greedy allocation onto the
key-indexed `AllocationPlan` of §3. -/
def toPlan (l : List (CouponType × Nat)) : List (String × Nat) :=
  l.map (fun cn => (cn.1.key, cn.2))

/-- Quantity an `AllocationPlan` assigns to a key (0 when absent). -/
def planQty (plan : List (String × Nat)) (k : String) : Nat :=
  match plan.find? (fun kn => kn.1 == k) with
  | some kn => kn.2
  | none => 0

/-- Total number of coupons in an `AllocationPlan`. -/
def planTotal : List (String × Nat) → Nat
  | [] => 0
  | kn :: rest => kn.2 + planTotal rest

/-- Total additional minutes of an `AllocationPlan`, durations resolved
through the catalog. -/
def planMinutes (catalog : Catalog) : List (String × Nat) → Nat
  | [] => 0
  | kn :: rest =>
    (match catalogLookup catalog kn.1 with
     | some c => kn.2 * c.durationMinutes
     | none => 0) + planMinutes catalog rest

/-- Total coupons of the internal greedy allocation. -/
def allocTotal : List (CouponType × Nat) → Nat
  | [] => 0
  | cn :: rest => cn.2 + allocTotal rest

/-- Total minutes of the internal greedy allocation (each entry carries its
own coupon type). -/
def allocMinutes : List (CouponType × Nat) → Nat
  | [] => 0
  | cn :: rest => cn.2 * cn.1.durationMinutes + allocMinutes rest

/-- Modelled from the spec: §4.4 Allocation Engine — pure function
(catalog, policy, history, is-weekend) → allocation plan plus `fullyCovered`
flag; `ConfigMismatchError` from the §4.2 calculator is fatal (no partial
plan).  The Python `ApplyCouponUseCase` / `CommonCouponCalculator` core is
missing from the snapshot. -/
def allocate (catalog : Catalog) (policy : DiscountPolicy)
    (history : AppliedCouponHistory) (isWeekend : Bool) :
    Except AllocError AllocationResult :=
  match currentMinutes catalog history.byVehicle with
  | Except.error e => Except.error e
  | Except.ok cur =>
    let remaining := policy.targetMinutes - cur
    if remaining = 0 then Except.ok ⟨[], true⟩
    else
      let freeOk := shouldApplyFreeCoupon (freeCount catalog history.aggregate)
        (freeCount catalog history.byVehicle) remaining (freeCouponDuration catalog)
      let candidates := sortCandidates (catalog.filter (isEligible isWeekend freeOk))
      let res := greedyAllocate policy.maxCoupons remaining 0 candidates
      Except.ok ⟨toPlan res.1, decide (res.2 = 0)⟩

/-- C-store catalog from `docs/6_current_coupon_parsing_logic.md`: a 120-minute
FREE coupon and a 60-minute PAID coupon. -/
def cStoreCatalog : Catalog :=
  [⟨"FREE_2HOUR", "무료 2시간할인", 120, CostClass.FREE, 0⟩,
   ⟨"PAID_1HOUR", "1시간 유료할인권", 60, CostClass.PAID, 1⟩]

/-- Weekday policy of the spec's §8 scenarios A–C: 180 target minutes, at most
3 additional coupons. -/
def scenarioPolicy : DiscountPolicy := ⟨180, 3⟩

/-- Empty applied-coupon history. -/
def emptyHistory : AppliedCouponHistory := ⟨[], []⟩

/-- Spec §8 Scenario A: empty history → plan FREE 1, PAID 1, fully covered. -/
theorem scenarioA_check :
    allocate cStoreCatalog scenarioPolicy emptyHistory false =
      Except.ok ⟨[("FREE_2HOUR", 1), ("PAID_1HOUR", 1)], true⟩ := by
  rfl

/-- Spec §8 Scenario B: one PAID hour already applied → plan FREE 1 only. -/
theorem scenarioB_check :
    allocate cStoreCatalog scenarioPolicy ⟨[("PAID_1HOUR", 1)], [("PAID_1HOUR", 1)]⟩ false =
      Except.ok ⟨[("FREE_2HOUR", 1)], true⟩ := by
  rfl

/-- Spec §8 Scenario C: 240 minutes already applied → zero plan. -/
theorem scenarioC_check :
    allocate cStoreCatalog scenarioPolicy
        ⟨[("FREE_2HOUR", 1), ("PAID_1HOUR", 2)], [("FREE_2HOUR", 1), ("PAID_1HOUR", 2)]⟩ false =
      Except.ok ⟨[], true⟩ := by
  rfl

lemma neededUnitsFor_le_cap (c : CouponType) (remaining capLeft : Nat) :
    neededUnitsFor c remaining capLeft ≤ capLeft := by
  unfold neededUnitsFor
  split
  · exact le_trans (min_le_left _ _) (min_le_right _ _)
  · exact min_le_right _ _

lemma greedyAllocate_nil (maxC remaining used : Nat) :
    greedyAllocate maxC remaining used [] = ([], remaining) := rfl

lemma greedyAllocate_cons (maxC remaining used : Nat) (c : CouponType) (rest : List CouponType) :
    greedyAllocate maxC remaining used (c :: rest) =
      if remaining = 0 then ([], remaining)
      else if maxC - used = 0 then ([], remaining)
      else
        ((c, neededUnitsFor c remaining (maxC - used)) ::
           (greedyAllocate maxC
             (remaining - neededUnitsFor c remaining (maxC - used) * c.durationMinutes)
             (used + neededUnitsFor c remaining (maxC - used)) rest).1,
         (greedyAllocate maxC
             (remaining - neededUnitsFor c remaining (maxC - used) * c.durationMinutes)
             (used + neededUnitsFor c remaining (maxC - used)) rest).2) := rfl

lemma greedy_allocTotal_le (maxC : Nat) (l : List CouponType) :
    ∀ remaining used, allocTotal (greedyAllocate maxC remaining used l).1 ≤ maxC - used := by
  induction l with
  | nil => intro r u; simp [greedyAllocate_nil, allocTotal]
  | cons c rest ih =>
    intro r u
    rw [greedyAllocate_cons]
    by_cases h0 : r = 0
    · simp [h0, allocTotal]
    · by_cases hcap : maxC - u = 0
      · simp [h0, hcap, allocTotal]
      · simp only [if_neg h0, if_neg hcap]
        have hn := neededUnitsFor_le_cap c r (maxC - u)
        have hrec := ih (r - neededUnitsFor c r (maxC - u) * c.durationMinutes)
          (u + neededUnitsFor c r (maxC - u))
        simp [allocTotal]
        omega

lemma planTotal_toPlan (l : List (CouponType × Nat)) : planTotal (toPlan l) = allocTotal l := by
  induction l with
  | nil => rfl
  | cons cn rest ih =>
    have ih' : planTotal (List.map (fun cn => (cn.1.key, cn.2)) rest) = allocTotal rest := ih
    simp only [toPlan, List.map_cons, planTotal, allocTotal]
    omega

/-- C1: Idempotence of allocation — whenever the already-applied minutes meet
or exceed `policy.targetMinutes`, the engine returns the all-zero
`AllocationPlan` (every key maps to quantity 0, zero total coupons), so
re-running allocation after the target is met yields no additional coupons. -/
theorem allocate_idempotent (catalog : Catalog) (policy : DiscountPolicy)
    (history : AppliedCouponHistory) (isWeekend : Bool) (cur : Nat)
    (hcur : currentMinutes catalog history.byVehicle = Except.ok cur)
    (hge : policy.targetMinutes ≤ cur) :
    ∃ r, allocate catalog policy history isWeekend = Except.ok r ∧
      r.fullyCovered = true ∧ (∀ k, planQty r.plan k = 0) ∧ planTotal r.plan = 0 := by
  refine ⟨⟨[], true⟩, ?_, rfl, fun k => rfl, rfl⟩
  unfold allocate
  rw [hcur]
  simp [Nat.sub_eq_zero_of_le hge]

/-- Witness for C1 at the spec's Scenario C input (240 minutes already
applied against a 180-minute target). -/
theorem allocate_idempotent_witness :
    ∃ r, allocate cStoreCatalog scenarioPolicy
        ⟨[("FREE_2HOUR", 1), ("PAID_1HOUR", 2)], [("FREE_2HOUR", 1), ("PAID_1HOUR", 2)]⟩ false =
        Except.ok r ∧
      r.fullyCovered = true ∧ (∀ k, planQty r.plan k = 0) ∧ planTotal r.plan = 0 :=
  allocate_idempotent _ _ _ _ 240 rfl (by decide)

/-- C2: Cap invariant — every plan the engine returns allocates at most
`policy.maxCoupons` coupons in total; the greedy walk caps each candidate's
`neededUnits` by the units still allowed. -/
theorem allocate_cap_invariant (catalog : Catalog) (policy : DiscountPolicy)
    (history : AppliedCouponHistory) (isWeekend : Bool) (r : AllocationResult)
    (hok : allocate catalog policy history isWeekend = Except.ok r) :
    planTotal r.plan ≤ policy.maxCoupons := by
  simp only [allocate] at hok
  split at hok
  · exact Except.noConfusion hok
  · split at hok
    · injection hok with h
      subst h
      exact Nat.zero_le _
    · injection hok with h
      subst h
      rw [AllocationResult.plan, planTotal_toPlan]
      exact greedy_allocTotal_le _ _ _ 0

/-- Witness for C2 at the spec's Scenario A input. -/
theorem allocate_cap_invariant_witness :
    planTotal [("FREE_2HOUR", 1), ("PAID_1HOUR", 1)] ≤ scenarioPolicy.maxCoupons :=
  allocate_cap_invariant cStoreCatalog scenarioPolicy emptyHistory false
    ⟨[("FREE_2HOUR", 1), ("PAID_1HOUR", 1)], true⟩ rfl

lemma mem_insertCandidate {x c : CouponType} {l : List CouponType} :
    x ∈ insertCandidate c l ↔ x = c ∨ x ∈ l := by
  induction l with
  | nil => simp [insertCandidate]
  | cons d rest ih =>
    simp only [insertCandidate]
    split
    · simp [List.mem_cons]
    · simp only [List.mem_cons, ih]
      tauto

lemma mem_sortCandidates {x : CouponType} {l : List CouponType} :
    x ∈ sortCandidates l ↔ x ∈ l := by
  induction l with
  | nil => simp [sortCandidates]
  | cons c rest ih => simp [sortCandidates, mem_insertCandidate, ih]

lemma catalogLookup_eq_self {catalog : Catalog}
    (hnd : (catalog.map CouponType.key).Nodup) {c : CouponType} (hc : c ∈ catalog) :
    catalogLookup catalog c.key = some c := by
  induction catalog with
  | nil => cases hc
  | cons d rest ih =>
    rw [List.map_cons, List.nodup_cons] at hnd
    rcases List.mem_cons.mp hc with h | h
    · subst h
      simp [catalogLookup, List.find?]
    · have hne : (d.key == c.key) = false := by
        simp only [beq_eq_false_iff_ne, ne_eq]
        intro he
        exact hnd.1 (he ▸ List.mem_map_of_mem CouponType.key h)
      simp only [catalogLookup, List.find?_cons, hne]
      exact ih hnd.2 h

lemma greedy_mem (maxC : Nat) (l : List CouponType) :
    ∀ remaining used cn, cn ∈ (greedyAllocate maxC remaining used l).1 → cn.1 ∈ l := by
  induction l with
  | nil => intro r u cn h; simp [greedyAllocate_nil] at h
  | cons c rest ih =>
    intro r u cn h
    rw [greedyAllocate_cons] at h
    by_cases h0 : r = 0
    · simp [h0] at h
    · by_cases hcap : maxC - u = 0
      · simp [h0, hcap] at h
      · simp [h0, hcap, List.mem_cons] at h
        rcases h with h | h
        · subst h; exact List.mem_cons_self _ _
        · exact List.mem_cons_of_mem _ (ih _ _ _ h)

lemma planMinutes_toPlan (catalog : Catalog) (l : List (CouponType × Nat))
    (h : ∀ cn ∈ l, catalogLookup catalog cn.1.key = some cn.1) :
    planMinutes catalog (toPlan l) = allocMinutes l := by
  induction l with
  | nil => rfl
  | cons cn rest ih =>
    have h1 := h cn (List.mem_cons_self _ _)
    have ih' : planMinutes catalog (List.map (fun cn => (cn.1.key, cn.2)) rest) =
        allocMinutes rest := ih (fun x hx => h x (List.mem_cons_of_mem _ hx))
    simp only [toPlan, List.map_cons, planMinutes, allocMinutes]
    simp only [h1]
    rw [ih']

lemma greedy_coverage (maxC : Nat) (l : List CouponType) :
    ∀ remaining used,
      remaining ≤ allocMinutes (greedyAllocate maxC remaining used l).1 +
        (greedyAllocate maxC remaining used l).2 := by
  induction l with
  | nil => intro r u; simp [greedyAllocate_nil, allocMinutes]
  | cons c rest ih =>
    intro r u
    rw [greedyAllocate_cons]
    by_cases h0 : r = 0
    · simp [h0, allocMinutes]
    · by_cases hcap : maxC - u = 0
      · simp [h0, hcap, allocMinutes]
      · simp only [if_neg h0, if_neg hcap]
        have ihh := ih (r - neededUnitsFor c r (maxC - u) * c.durationMinutes)
          (u + neededUnitsFor c r (maxC - u))
        simp [allocMinutes]
        omega

lemma greedy_coverage_of_done (maxC : Nat) (l : List CouponType) (remaining used : Nat)
    (h2 : (greedyAllocate maxC remaining used l).2 = 0) :
    remaining ≤ allocMinutes (greedyAllocate maxC remaining used l).1 := by
  have := greedy_coverage maxC l remaining used
  omega

/-- C3: Coverage soundness of the `fullyCovered` flag — whenever the engine
reports `fullyCovered = true`, the already-applied minutes plus the plan's
additional minutes reach `policy.targetMinutes` (catalog keys unique, per the
spec's §3 catalog invariant).  `fullyCovered` is computed as exactly the test
that the greedy walk drove the remaining minutes to zero. -/
theorem allocate_coverage_sound (catalog : Catalog) (policy : DiscountPolicy)
    (history : AppliedCouponHistory) (isWeekend : Bool) (r : AllocationResult) (cur : Nat)
    (hnd : (catalog.map CouponType.key).Nodup)
    (hcur : currentMinutes catalog history.byVehicle = Except.ok cur)
    (hok : allocate catalog policy history isWeekend = Except.ok r)
    (hfc : r.fullyCovered = true) :
    policy.targetMinutes ≤ cur + planMinutes catalog r.plan := by
  simp only [allocate] at hok
  split at hok
  · rename_i e heq
    rw [hcur] at heq
    exact Except.noConfusion heq
  · rename_i m heq
    rw [hcur] at heq
    injection heq with hm
    subst hm
    split at hok
    · rename_i h0
      injection hok with h
      subst h
      simp [planMinutes]
      omega
    · rename_i h0
      injection hok with h
      subst h
      simp only [AllocationResult.fullyCovered] at hfc
      have hrem0 := of_decide_eq_true hfc
      have hcov := greedy_coverage_of_done _ _ _ _ hrem0
      rw [AllocationResult.plan, planMinutes_toPlan]
      · omega
      · intro cn hcn
        have h1 : cn.1 ∈ catalog := by
          have h2 := greedy_mem _ _ _ _ _ hcn
          rw [mem_sortCandidates] at h2
          exact (List.mem_filter.mp h2).1
        exact catalogLookup_eq_self hnd h1

/-- Witness for C3 at the spec's Scenario A input. -/
theorem allocate_coverage_sound_witness :
    scenarioPolicy.targetMinutes ≤
      0 + planMinutes cStoreCatalog [("FREE_2HOUR", 1), ("PAID_1HOUR", 1)] :=
  allocate_coverage_sound cStoreCatalog scenarioPolicy emptyHistory false
    ⟨[("FREE_2HOUR", 1), ("PAID_1HOUR", 1)], true⟩ 0 (by decide) rfl rfl rfl

lemma greedy_free_le_one (maxC : Nat) (l : List CouponType) :
    ∀ remaining used cn, cn ∈ (greedyAllocate maxC remaining used l).1 →
      cn.1.costClass = CostClass.FREE → cn.2 ≤ 1 := by
  induction l with
  | nil => intro r u cn h _; simp [greedyAllocate_nil] at h
  | cons c rest ih =>
    intro r u cn h hfree
    rw [greedyAllocate_cons] at h
    by_cases h0 : r = 0
    · simp [h0] at h
    · by_cases hcap : maxC - u = 0
      · simp [h0, hcap] at h
      · simp [h0, hcap] at h
        rcases h with h | h
        · subst h
          have hf : c.costClass = CostClass.FREE := hfree
          show neededUnitsFor c r (maxC - u) ≤ 1
          unfold neededUnitsFor
          rw [if_pos hf]
          exact min_le_right _ _
        · exact ih _ _ _ h hfree

/-- C4: Free-once invariant — every plan the engine returns allocates at most
one unit of a FREE-class coupon type, regardless of how many minutes remain
uncovered; the §4.3 gate plus the per-call free allowance cap the FREE
candidate at a single unit. -/
theorem allocate_free_once (catalog : Catalog) (policy : DiscountPolicy)
    (history : AppliedCouponHistory) (isWeekend : Bool) (r : AllocationResult)
    (k : String) (c : CouponType)
    (hnd : (catalog.map CouponType.key).Nodup)
    (hok : allocate catalog policy history isWeekend = Except.ok r)
    (hlk : catalogLookup catalog k = some c)
    (hfree : c.costClass = CostClass.FREE) :
    planQty r.plan k ≤ 1 := by
  simp only [allocate] at hok
  split at hok
  · exact Except.noConfusion hok
  · split at hok
    · injection hok with h
      subst h
      exact Nat.zero_le 1
    · injection hok with h
      subst h
      rw [AllocationResult.plan]
      unfold planQty
      cases hf : List.find? (fun kn => kn.1 == k) (toPlan (greedyAllocate _ _ 0 _).1) with
      | none => exact Nat.zero_le 1
      | some kn =>
        have hmem := List.mem_of_find?_eq_some hf
        have hpred := List.find?_some hf
        have hkeq : kn.1 = k := by simpa using hpred
        rcases List.mem_map.mp hmem with ⟨cn, hcn, hcnkn⟩
        have hcat : cn.1 ∈ catalog := by
          have h2 := greedy_mem _ _ _ _ _ hcn
          rw [mem_sortCandidates] at h2
          exact (List.mem_filter.mp h2).1
        have hself := catalogLookup_eq_self hnd hcat
        have hkey : cn.1.key = k := by
          have := congrArg Prod.fst hcnkn
          simpa [hkeq] using this
        rw [hkey, hlk] at hself
        injection hself with hcc
        have hq : cn.2 = kn.2 := congrArg Prod.snd hcnkn
        have := greedy_free_le_one _ _ _ _ _ hcn (hcc ▸ hfree)
        show kn.2 ≤ 1
        omega

/-- Witness for C4 at the spec's Scenario A input. -/
theorem allocate_free_once_witness :
    planQty [("FREE_2HOUR", 1), ("PAID_1HOUR", 1)] ("FREE_2HOUR") ≤ 1 :=
  allocate_free_once cStoreCatalog scenarioPolicy emptyHistory false
    ⟨[("FREE_2HOUR", 1), ("PAID_1HOUR", 1)], true⟩ ("FREE_2HOUR")
    ⟨"FREE_2HOUR", "무료 2시간할인", 120, CostClass.FREE, 0⟩ (by decide) rfl rfl rfl

/-- Spec §8 Scenario D catalog: a single PAID 60-minute coupon type. -/
def scenarioDCatalog : Catalog := [⟨"PAID_COUPON", "유료 1시간할인", 60, CostClass.PAID, 1⟩]

/-- Spec §8 Scenario D policy: 180 target minutes, at most one coupon. -/
def scenarioDPolicy : DiscountPolicy := ⟨180, 1⟩

/-- C5: Partial coverage is never an error — whenever the §4.2 calculator
succeeds the engine returns a plan (it never fails just because the cap stops
short of the target); in particular Scenario D (target 180, cap 1, only a
PAID 60-minute type, empty history) yields the plan PAID 1 with
`fullyCovered = false`. -/
theorem allocate_partial_not_error (catalog : Catalog) (policy : DiscountPolicy)
    (history : AppliedCouponHistory) (isWeekend : Bool) (cur : Nat)
    (hcur : currentMinutes catalog history.byVehicle = Except.ok cur) :
    (∃ r, allocate catalog policy history isWeekend = Except.ok r) ∧
      allocate scenarioDCatalog scenarioDPolicy emptyHistory false =
        Except.ok ⟨[("PAID_COUPON", 1)], false⟩ := by
  constructor
  · unfold allocate
    rw [hcur]
    dsimp only
    split
    · exact ⟨_, rfl⟩
    · exact ⟨_, rfl⟩
  · rfl

/-- Witness for C5 with an empty history against the Scenario A store. -/
theorem allocate_partial_not_error_witness :
    (∃ r, allocate cStoreCatalog scenarioPolicy emptyHistory false = Except.ok r) ∧
      allocate scenarioDCatalog scenarioDPolicy emptyHistory false =
        Except.ok ⟨[("PAID_COUPON", 1)], false⟩ :=
  allocate_partial_not_error cStoreCatalog scenarioPolicy emptyHistory false 0 rfl

lemma currentMinutes_error_of_unknown (catalog : Catalog) :
    ∀ (bv : List (String × Nat)) (k : String) (n : Nat),
      (k, n) ∈ bv → catalogLookup catalog k = none →
      ∃ e, currentMinutes catalog bv = Except.error (AllocError.ConfigMismatchError e) := by
  intro bv
  induction bv with
  | nil => intro k n h _; cases h
  | cons kn rest ih =>
    intro k n hmem hnone
    rcases List.mem_cons.mp hmem with h | h
    · subst h
      refine ⟨k, ?_⟩
      simp [currentMinutes, hnone]
    · cases hl : catalogLookup catalog kn.1 with
      | none => exact ⟨kn.1, by simp [currentMinutes, hl]⟩
      | some c =>
        rcases ih k n h hnone with ⟨e, he⟩
        refine ⟨e, ?_⟩
        simp [currentMinutes, hl, he]

/-- The duration the catalog assigns to a key (0 when absent); used to write
the spec's §4.2 summation formula verbatim. -/
def lookupDuration (catalog : Catalog) (k : String) : Nat :=
  match catalogLookup catalog k with
  | some c => c.durationMinutes
  | none => 0

/-- The spec's §4.2 formula, written as the spec words it:
`Σ over k in byVehicle: byVehicle[k] * catalogLookup(k).durationMinutes`. -/
def specCurrentMinutes (catalog : Catalog) : List (String × Nat) → Nat
  | [] => 0
  | kn :: rest => kn.2 * lookupDuration catalog kn.1 + specCurrentMinutes catalog rest

lemma currentMinutes_ok_of_known (catalog : Catalog) :
    ∀ bv : List (String × Nat),
      (∀ kn ∈ bv, (catalogLookup catalog kn.1).isSome = true) →
      currentMinutes catalog bv = Except.ok (specCurrentMinutes catalog bv) := by
  intro bv
  induction bv with
  | nil => intro _; rfl
  | cons kn rest ih =>
    intro h
    have h1 := h kn (List.mem_cons_self _ _)
    rcases ho : catalogLookup catalog kn.1 with _ | c
    · rw [ho] at h1; simp at h1
    · have ih' := ih (fun x hx => h x (List.mem_cons_of_mem _ hx))
      simp [currentMinutes, ho, ih', specCurrentMinutes, lookupDuration]

/-- C6: ConfigMismatchError on unknown history keys — any `byVehicle` key
absent from the catalog makes the calculator (and the whole allocation call)
fail with `ConfigMismatchError`, returning no plan; when every key resolves,
`currentMinutes` is exactly the spec's summation
`Σ byVehicle[k] * catalogLookup(k).durationMinutes` (a `Nat`, so non-negative
minute precision). -/
theorem config_mismatch_fatal :
    (∀ (catalog : Catalog) (policy : DiscountPolicy) (history : AppliedCouponHistory)
        (isWeekend : Bool) (k : String) (n : Nat),
        (k, n) ∈ history.byVehicle → catalogLookup catalog k = none →
        ∃ e, allocate catalog policy history isWeekend =
          Except.error (AllocError.ConfigMismatchError e)) ∧
    (∀ (catalog : Catalog) (bv : List (String × Nat)),
        (∀ kn ∈ bv, (catalogLookup catalog kn.1).isSome = true) →
        currentMinutes catalog bv = Except.ok (specCurrentMinutes catalog bv)) := by
  constructor
  · intro catalog policy history isWeekend k n hmem hnone
    rcases currentMinutes_error_of_unknown catalog history.byVehicle k n hmem hnone with ⟨e, he⟩
    refine ⟨e, ?_⟩
    unfold allocate
    rw [he]
  · exact currentMinutes_ok_of_known

/-- Witness for C6: an unknown key aborts allocation; a resolvable history
evaluates to the spec's summation. -/
theorem config_mismatch_fatal_witness :
    (∃ e, allocate cStoreCatalog scenarioPolicy ⟨[("UNKNOWN_COUPON", 1)], []⟩ false =
      Except.error (AllocError.ConfigMismatchError e)) ∧
    currentMinutes cStoreCatalog [("PAID_1HOUR", 2)] =
      Except.ok (specCurrentMinutes cStoreCatalog [("PAID_1HOUR", 2)]) :=
  ⟨config_mismatch_fatal.1 cStoreCatalog scenarioPolicy ⟨[("UNKNOWN_COUPON", 1)], []⟩ false
      ("UNKNOWN_COUPON") 1 (List.mem_cons_self _ _) rfl,
   config_mismatch_fatal.2 cStoreCatalog [("PAID_1HOUR", 2)] (by decide)⟩

lemma le_ceilDiv_mul (r d : Nat) (hd : 0 < d) : r ≤ ceilDiv r d * d := by
  unfold ceilDiv
  have h1 := Nat.div_add_mod (r + d - 1) d
  have h2 : (r + d - 1) % d < d := Nat.mod_lt _ hd
  have h3 : d * ((r + d - 1) / d) = ((r + d - 1) / d) * d := Nat.mul_comm _ _
  omega

lemma neededUnits_nonfree (c : CouponType) (r cap : Nat)
    (h : ¬c.costClass = CostClass.FREE) :
    neededUnitsFor c r cap = min (ceilDiv r c.durationMinutes) cap := by
  unfold neededUnitsFor
  rw [if_neg h]

lemma greedy_rem_zero (maxC u : Nat) (l : List CouponType) :
    greedyAllocate maxC 0 u l = ([], 0) := by
  cases l with
  | nil => rfl
  | cons c rest => rw [greedyAllocate_cons]; simp

lemma greedy_cap_exhausted (maxC r u : Nat) (l : List CouponType) (h : maxC - u = 0) :
    greedyAllocate maxC r u l = ([], r) := by
  cases l with
  | nil => rfl
  | cons c rest =>
    rw [greedyAllocate_cons]
    by_cases h0 : r = 0
    · simp [h0]
    · simp [h0, h]

lemma greedy_saturates (maxC : Nat) (l : List CouponType) :
    (∀ c ∈ l, 0 < c.durationMinutes) →
    ∀ remaining used cn,
      (greedyAllocate maxC remaining used l).2 ≠ 0 →
      cn ∈ (greedyAllocate maxC remaining used l).1 →
      1 ≤ cn.2 → cn.1.costClass ≠ CostClass.FREE →
      used + allocTotal (greedyAllocate maxC remaining used l).1 = maxC := by
  induction l with
  | nil => intro _ r u cn _ h _ _; simp [greedyAllocate_nil] at h
  | cons c rest ih =>
    intro hdur r u cn hrem hmem h1 hnf
    rw [greedyAllocate_cons] at hrem hmem ⊢
    by_cases h0 : r = 0
    · simp [h0] at hmem
    · by_cases hcap : maxC - u = 0
      · simp [h0, hcap] at hmem
      · simp only [if_neg h0, if_neg hcap] at hrem hmem ⊢
        set n := neededUnitsFor c r (maxC - u) with hn_def
        rcases List.mem_cons.mp hmem with heq | hmem2
        · subst heq
          have hc : ¬c.costClass = CostClass.FREE := hnf
          have hd : 0 < c.durationMinutes := hdur c (List.mem_cons_self _ _)
          by_cases hle : ceilDiv r c.durationMinutes ≤ maxC - u
          · have hn : n = ceilDiv r c.durationMinutes := by
              rw [hn_def, neededUnits_nonfree c r (maxC - u) hc]
              exact min_eq_left hle
            have hcov := le_ceilDiv_mul r c.durationMinutes hd
            have hzero : r - n * c.durationMinutes = 0 := by
              rw [hn]
              omega
            rw [hzero, greedy_rem_zero] at hrem
            exact absurd rfl hrem
          · have hn : n = maxC - u := by
              rw [hn_def, neededUnits_nonfree c r (maxC - u) hc]
              exact min_eq_right (Nat.le_of_lt (Nat.lt_of_not_le hle))
            have hdone : maxC - (u + n) = 0 := by omega
            rw [greedy_cap_exhausted maxC (r - n * c.durationMinutes) (u + n) rest hdone]
            simp [allocTotal]
            omega
        · have hsat := ih (fun d hd => hdur d (List.mem_cons_of_mem _ hd))
            (r - n * c.durationMinutes) (u + n) cn hrem hmem2 h1 hnf
          simp [allocTotal]
          omega

/-- Catalog exhibiting the failure of C7 as stated: a single FREE 60-minute
coupon type. -/
def c7Catalog : Catalog := [⟨"FREE_COUPON", "무료 1시간할인", 60, CostClass.FREE, 0⟩]

/-- Policy exhibiting the failure of C7 as stated: 120 target minutes, up to
3 coupons. -/
def c7Policy : DiscountPolicy := ⟨120, 3⟩

/-- Counterexample to C7 as stated: with target 120, `maxCoupons = 3`, a FREE
60-minute type only and empty history, the engine returns FREE 1 with
`fullyCovered = false` — 60 minutes remain uncovered, one more unit of the
already-used FREE type would cover the whole target, and `policy.maxCoupons`
permits that extra unit (1 + 1 ≤ 3); the free-once allowance, not the coupon
cap, forbids it. -/
theorem ceiling_no_shortfall_counterexample :
    allocate c7Catalog c7Policy emptyHistory false =
      Except.ok ⟨[("FREE_COUPON", 1)], false⟩ ∧
    planTotal [("FREE_COUPON", 1)] + 1 ≤ c7Policy.maxCoupons ∧
    c7Policy.targetMinutes ≤ 0 + planMinutes c7Catalog [("FREE_COUPON", 2)] :=
  ⟨rfl, by decide, by decide⟩

/-- C7 (amended): unit counts use the integer ceiling
`(remainingMinutes + durationMinutes - 1) / durationMinutes` (definition
`ceilDiv`, all arithmetic on `Nat`), and the engine never returns a plan
leaving minutes uncovered that one more unit of an already-used candidate
type could reduce, unless `policy.maxCoupons` forbids that extra unit or the
type is FREE-class (capped at one unit per call by the free-once allowance):
whenever `fullyCovered = false` and the plan uses at least one unit of a
non-FREE type, the plan's total coupon count equals `policy.maxCoupons`. -/
theorem allocate_cap_saturated_when_short (catalog : Catalog) (policy : DiscountPolicy)
    (history : AppliedCouponHistory) (isWeekend : Bool) (r : AllocationResult)
    (k : String) (n : Nat) (c : CouponType)
    (hdur : ∀ d ∈ catalog, 0 < d.durationMinutes)
    (hnd : (catalog.map CouponType.key).Nodup)
    (hok : allocate catalog policy history isWeekend = Except.ok r)
    (hfc : r.fullyCovered = false)
    (hmem : (k, n) ∈ r.plan) (h1 : 1 ≤ n)
    (hlk : catalogLookup catalog k = some c)
    (hnf : c.costClass ≠ CostClass.FREE) :
    planTotal r.plan = policy.maxCoupons := by
  simp only [allocate] at hok
  split at hok
  · exact Except.noConfusion hok
  · rename_i cur heq
    split at hok
    · injection hok with h
      subst h
      exact Bool.noConfusion hfc
    · injection hok with h
      subst h
      simp only [AllocationResult.fullyCovered] at hfc
      have hrem : ¬(greedyAllocate _ _ 0 _).2 = 0 := of_decide_eq_false hfc
      rw [AllocationResult.plan] at hmem
      rcases List.mem_map.mp hmem with ⟨cn, hcn, hcnkn⟩
      have hcat : cn.1 ∈ catalog := by
        have h2 := greedy_mem _ _ _ _ _ hcn
        rw [mem_sortCandidates] at h2
        exact (List.mem_filter.mp h2).1
      have hself := catalogLookup_eq_self hnd hcat
      have hkey : cn.1.key = k := congrArg Prod.fst hcnkn
      rw [hkey, hlk] at hself
      injection hself with hcc
      have hq : cn.2 = n := congrArg Prod.snd hcnkn
      have h1' : 1 ≤ cn.2 := by omega
      have hnf' : cn.1.costClass ≠ CostClass.FREE := by
        rw [← hcc]
        exact hnf
      have hdur' : ∀ d ∈ sortCandidates (List.filter (isEligible isWeekend
          (shouldApplyFreeCoupon (freeCount catalog history.aggregate)
            (freeCount catalog history.byVehicle) (policy.targetMinutes - cur)
            (freeCouponDuration catalog))) catalog), 0 < d.durationMinutes :=
        fun d hd => hdur d (List.mem_filter.mp (mem_sortCandidates.mp hd)).1
      have hsat := greedy_saturates policy.maxCoupons _ hdur' _ 0 cn hrem hcn h1' hnf'
      rw [AllocationResult.plan, planTotal_toPlan]
      omega

/-- Witness for the amended C7 at the spec's Scenario D input: the plan PAID 1
is returned short of the target exactly because the cap of 1 is saturated. -/
theorem allocate_cap_saturated_when_short_witness :
    planTotal [("PAID_COUPON", 1)] = scenarioDPolicy.maxCoupons :=
  allocate_cap_saturated_when_short scenarioDCatalog scenarioDPolicy emptyHistory false
    ⟨[("PAID_COUPON", 1)], false⟩ ("PAID_COUPON") 1
    ⟨"PAID_COUPON", "유료 1시간할인", 60, CostClass.PAID, 1⟩
    (by decide) (by decide) rfl rfl (List.mem_cons_self _ _) (by decide) rfl (by decide)

/-- C8: Determinism — the Allocation Engine is a pure function of
(catalog, policy, history, is-weekend): any two invocations on equal inputs
return identical plans and `fullyCovered` flags; the shallow embedding has no
other state the result could depend on. -/
theorem allocate_deterministic (catalog₁ catalog₂ : Catalog)
    (policy₁ policy₂ : DiscountPolicy) (history₁ history₂ : AppliedCouponHistory)
    (w₁ w₂ : Bool) (hc : catalog₁ = catalog₂) (hp : policy₁ = policy₂)
    (hh : history₁ = history₂) (hw : w₁ = w₂) :
    allocate catalog₁ policy₁ history₁ w₁ = allocate catalog₂ policy₂ history₂ w₂ := by
  subst hc
  subst hp
  subst hh
  subst hw
  rfl

/-- Witness for C8 at the spec's Scenario A input. -/
theorem allocate_deterministic_witness :
    allocate cStoreCatalog scenarioPolicy emptyHistory false =
      allocate cStoreCatalog scenarioPolicy emptyHistory false :=
  allocate_deterministic cStoreCatalog cStoreCatalog scenarioPolicy scenarioPolicy
    emptyHistory emptyHistory false false rfl rfl rfl rfl

/-- `DUPLICATE_WINDOW_MINUTES` from `unnamed/part_000` line 16 and
`google_apps_script/form_to_webhook.js` line 22. -/
def DUPLICATE_WINDOW_MINUTES : Nat := 60

/-- A stored registration record, as built by `isDuplicateRequest`
(`unnamed/part_000` line 185): vehicle number and submission timestamp in
milliseconds. -/
structure DupRecord where
  vehicle : String
  timestamp : Nat
deriving DecidableEq, Repr

/-- The duplicate-prevention store persisted through `PropertiesService`:
request key → record, modelled as an association list in insertion order. -/
abbrev DupStore := List (String × DupRecord)

/-- Property lookup on the duplicate-prevention store
(`duplicateData[requestKey]`). -/
def dupLookup (data : DupStore) (k : String) : Option DupRecord :=
  match data.find? (fun kv => kv.1 == k) with
  | some kv => some kv.2
  | none => none

/-- Property assignment `duplicateData[requestKey] = record`: overwrite in
place when the key exists, append otherwise (JS object semantics). -/
def dupSet (k : String) (record : DupRecord) : DupStore → DupStore
  | [] => [(k, record)]
  | kv :: rest => if kv.1 == k then (k, record) :: rest else kv :: dupSet k record rest

/-- `generateRequestKey` (`unnamed/part_000` lines 161–164,
`form_to_webhook.js` lines 118–122): the key embeds the epoch bucket
`Math.floor(timestamp / (DUPLICATE_WINDOW_MINUTES * 60 * 1000))`. -/
def generateRequestKey (sheetName vehicleNumber : String) (timestamp : Nat) : String :=
  sheetName ++ "-" ++ vehicleNumber ++ "-" ++
    toString (timestamp / (DUPLICATE_WINDOW_MINUTES * 60 * 1000))

/-- `cleanupOldDuplicateData` (`unnamed/part_000` lines 144–156): delete every
record older than twice the window; kept iff `now - timestamp ≤ 2·window`. -/
def cleanupOldDuplicateData (now : Nat) (data : DupStore) : DupStore :=
  data.filter (fun kv => decide (now - kv.2.timestamp ≤ DUPLICATE_WINDOW_MINUTES * 2 * 60 * 1000))

/-- Result of `isDuplicateRequest`: the duplicate flag and, on a duplicate,
the remaining minutes of the window. -/
structure DupCheckResult where
  isDuplicate : Bool
  remainingTime : Option Nat
deriving DecidableEq, Repr

/-- `isDuplicateRequest` (`unnamed/part_000` lines 169–188, `form_to_webhook.js`
lines 127–167): build the bucketed key for `now`, clean up, and flag a
duplicate iff a record exists under that key less than the window old.  The
second component is the persistent store after the call: on the duplicate path
the JS returns before saving, so the stored data is unchanged; otherwise the
cleaned store with the new registration saved. -/
def isDuplicateRequest (sheetName vehicleNumber : String) (now : Nat) (data : DupStore) :
    DupCheckResult × DupStore :=
  match dupLookup (cleanupOldDuplicateData now data) (generateRequestKey sheetName vehicleNumber now) with
  | some existing =>
    if now - existing.timestamp < DUPLICATE_WINDOW_MINUTES * 60 * 1000 then
      (⟨true, some (ceilDiv (DUPLICATE_WINDOW_MINUTES * 60 * 1000 - (now - existing.timestamp)) 60000)⟩,
        data)
    else
      (⟨false, none⟩,
        dupSet (generateRequestKey sheetName vehicleNumber now) ⟨vehicleNumber, now⟩
          (cleanupOldDuplicateData now data))
  | none =>
    (⟨false, none⟩,
      dupSet (generateRequestKey sheetName vehicleNumber now) ⟨vehicleNumber, now⟩
        (cleanupOldDuplicateData now data))

/-- C9: Duplicate detection is time-bucketed, not sliding-window —
`isDuplicateRequest` flags a duplicate iff a registration exists under the
bucketed key (sheet, vehicle, `floor(now / window)`) less than the window old;
consequently two submissions of the same sheet and vehicle 1 millisecond
apart (3599999 and 3600000) fall in different hour buckets and are both
reported non-duplicate, so both proceed to the Lambda webhook. -/
theorem duplicate_detection_time_bucketed :
    (∀ (sheetName vehicleNumber : String) (now : Nat) (data : DupStore),
      (isDuplicateRequest sheetName vehicleNumber now data).1.isDuplicate = true ↔
        ∃ r0, dupLookup (cleanupOldDuplicateData now data)
            (generateRequestKey sheetName vehicleNumber now) = some r0 ∧
          now - r0.timestamp < DUPLICATE_WINDOW_MINUTES * 60 * 1000) ∧
    ((isDuplicateRequest ("A매장") ("1234") 3599999 []).1.isDuplicate = false ∧
      (isDuplicateRequest ("A매장") ("1234") 3600000
        (isDuplicateRequest ("A매장") ("1234") 3599999 []).2).1.isDuplicate = false ∧
      3600000 - 3599999 < DUPLICATE_WINDOW_MINUTES * 60 * 1000 ∧
      generateRequestKey ("A매장") ("1234") 3599999 ≠
        generateRequestKey ("A매장") ("1234") 3600000) := by
  constructor
  · intro sheetName vehicleNumber now data
    unfold isDuplicateRequest
    cases hl : dupLookup (cleanupOldDuplicateData now data)
        (generateRequestKey sheetName vehicleNumber now) with
    | none => simp
    | some existing =>
      by_cases ht : now - existing.timestamp < DUPLICATE_WINDOW_MINUTES * 60 * 1000
      · simp [ht]
      · simp [ht]
  · refine ⟨rfl, rfl, by decide, by decide⟩

/-- ASCII digit test, the `\d` of the JS regexes. -/
def isAsciiDigit (c : Char) : Bool :=
  decide (Char.toNat ('0') ≤ c.toNat) && decide (c.toNat ≤ Char.toNat ('9'))

/-- Hangul-syllable test, the `[가-힣]` character class of the JS regexes. -/
def isHangulSyllable (c : Char) : Bool :=
  decide (Char.toNat ('가') ≤ c.toNat) && decide (c.toNat ≤ Char.toNat ('힣'))

/-- The regex `^\d{4}$` of `validateAndNormalizeVehicle`: exactly four
digits. -/
def matchesLast4 (s : List Char) : Bool := (s.length == 4) && s.all isAsciiDigit

/-- The regex `^\d{2,3}[가-힣]\d{4}$` of `validateAndNormalizeVehicle`: two or
three digits, one Hangul syllable, four digits.  Since a Hangul syllable is
never a digit, a digit in third position forces the three-digit alternative
and a non-digit forces the two-digit one. -/
def matchesFullPlate : List Char → Bool
  | d1 :: d2 :: c3 :: rest =>
    isAsciiDigit d1 && isAsciiDigit d2 &&
      (if isAsciiDigit c3 then
        match rest with
        | h :: tail => isHangulSyllable h && matchesLast4 tail
        | [] => false
      else
        isHangulSyllable c3 && matchesLast4 rest)
  | _ => false

/-- Whitespace removed by the JS `String.prototype.trim()`. -/
def isJsWhitespace (c : Char) : Bool :=
  c == ' ' || c == '\t' || c == '\n' || c == '\r' || c == '\x0b' || c == '\x0c'

/-- The `vehicleNumber.toString().trim()` step: strip whitespace from both
ends. -/
def jsTrim (s : List Char) : List Char :=
  ((s.dropWhile isJsWhitespace).reverse.dropWhile isJsWhitespace).reverse

/-- The `vehicle_format` value selecting the Dongtan-specific error message,
`last4_preferred` in `SHEET_STORE_MAP`. -/
def last4FormatTag : List Char := "last4_preferred".toList

/-- Result of `validateAndNormalizeVehicle` in `unnamed/part_000`
(lines 225–236): validity flag, normalized plate, error message. -/
structure VehicleValidation where
  valid : Bool
  normalized : Option (List Char)
  errorMsg : Option (List Char)
deriving DecidableEq, Repr

/-- `validateAndNormalizeVehicle` from `unnamed/part_000` lines 225–236: a
null or empty (falsy) input is rejected outright; otherwise the trimmed input
is accepted iff it matches `^\d{4}$` or `^\d{2,3}[가-힣]\d{4}$`, normalized to
itself; `storeInfo.vehicle_format` is consulted only to choose the error
message on rejection. -/
def validateAndNormalizeVehicle (vehicleNumber : Option (List Char))
    (vehicleFormat : List Char) : VehicleValidation :=
  match vehicleNumber with
  | none => ⟨false, none, some ("차량번호가 없습니다".toList)⟩
  | some v =>
    if v = [] then ⟨false, none, some ("차량번호가 없습니다".toList)⟩
    else if matchesLast4 (jsTrim v) || matchesFullPlate (jsTrim v) then
      ⟨true, some (jsTrim v), none⟩
    else if vehicleFormat = last4FormatTag then
      ⟨false, none,
        some (("동탄점은 뒤 4자리 숫자 또는 전체 차량번호를 입력해주세요. 입력값: ".toList) ++ jsTrim v)⟩
    else
      ⟨false, none, some (("잘못된 차량번호 형식입니다. 입력값: ".toList) ++ jsTrim v)⟩

/-- Result of `validateAndNormalizeVehicle` in
`google_apps_script/form_to_webhook.js` (lines 247–275), which additionally
reports the matched format. -/
structure VehicleValidation2 where
  valid : Bool
  normalized : Option (List Char)
  format : Option (List Char)
  errorMsg : Option (List Char)
deriving DecidableEq, Repr

/-- `validateAndNormalizeVehicle` from
`google_apps_script/form_to_webhook.js` lines 247–275: branches on
`storeInfo.vehicle_format` first, but both branches accept exactly the same
two regexes with the same normalization, differing only in the rejection
message. -/
def validateAndNormalizeVehicle2 (vehicleNumber : Option (List Char))
    (vehicleFormat : List Char) : VehicleValidation2 :=
  match vehicleNumber with
  | none => ⟨false, none, none, some ("차량번호가 없습니다".toList)⟩
  | some v =>
    if v = [] then ⟨false, none, none, some ("차량번호가 없습니다".toList)⟩
    else if vehicleFormat = last4FormatTag then
      if matchesLast4 (jsTrim v) then ⟨true, some (jsTrim v), some ("last4".toList), none⟩
      else if matchesFullPlate (jsTrim v) then ⟨true, some (jsTrim v), some ("full".toList), none⟩
      else
        ⟨false, none, none,
          some (("동탄점은 뒤 4자리 숫자(예: 5282) 또는 전체 차량번호(예: 12가3456)를 입력해주세요. 입력값: ".toList)
            ++ jsTrim v)⟩
    else
      if matchesLast4 (jsTrim v) then ⟨true, some (jsTrim v), some ("last4".toList), none⟩
      else if matchesFullPlate (jsTrim v) then ⟨true, some (jsTrim v), some ("full".toList), none⟩
      else
        ⟨false, none, none,
          some (("차량번호는 전체(예: 12가3456) 또는 뒤 4자리(예: 3456) 형식으로 입력해주세요. 입력값: ".toList)
            ++ jsTrim v)⟩

/-- C10: Vehicle-number validation is format-independent — both versions of
`validateAndNormalizeVehicle` accept an input iff its trimmed value matches
`^\d{4}$` or `^\d{2,3}[가-힣]\d{4}$`, independent of the store's
`vehicle_format` setting; on success the normalized value is the trimmed
input unchanged, and the two versions agree on validity and normalization,
the format setting changing only the rejection message. -/
theorem vehicle_validation_format_independent :
    ∀ (input : Option (List Char)) (fmt fmt' : List Char),
      ((validateAndNormalizeVehicle input fmt).valid = true ↔
        ∃ v, input = some v ∧
          (matchesLast4 (jsTrim v) || matchesFullPlate (jsTrim v)) = true) ∧
      (validateAndNormalizeVehicle input fmt).valid =
        (validateAndNormalizeVehicle input fmt').valid ∧
      (validateAndNormalizeVehicle input fmt).normalized =
        (validateAndNormalizeVehicle input fmt').normalized ∧
      ((validateAndNormalizeVehicle input fmt).valid = true →
        ∃ v, input = some v ∧
          (validateAndNormalizeVehicle input fmt).normalized = some (jsTrim v)) ∧
      (validateAndNormalizeVehicle2 input fmt).valid =
        (validateAndNormalizeVehicle input fmt).valid ∧
      (validateAndNormalizeVehicle2 input fmt).normalized =
        (validateAndNormalizeVehicle input fmt).normalized := by
  intro input fmt fmt'
  cases input with
  | none => simp [validateAndNormalizeVehicle, validateAndNormalizeVehicle2]
  | some v =>
    by_cases hv : v = []
    · subst hv
      simp [validateAndNormalizeVehicle, validateAndNormalizeVehicle2, jsTrim,
        matchesLast4, matchesFullPlate]
    · by_cases h4 : matchesLast4 (jsTrim v) = true <;>
        by_cases hfp : matchesFullPlate (jsTrim v) = true <;>
        by_cases hf : fmt = last4FormatTag <;>
        by_cases hf' : fmt' = last4FormatTag <;>
        simp [validateAndNormalizeVehicle, validateAndNormalizeVehicle2, hv, h4, hfp, hf, hf']
